import Mathlib

/-!
Verification of the alert-debouncing and RPC-resilience core of a NEAR
validator monitoring bot (bot.py).  Python global state is modelled by
explicit state passing; Python floats (timestamps, percentages) are
modelled as rationals; Python ints as Int/Nat.
-/

namespace Nearby

/-- Backoff schedule in seconds between repeated alerts (bot.py line 298). -/
def ALERT_BACKOFF : List Int := [0, 60, 300]

/-- Per-metric alert state (bot.py lines 299-303): last observed badness,
backoff stage, and timestamp before which no further alert is eligible. -/
structure AlertState where
  last : Int
  stage : Nat
  next_ts : Rat
deriving Repr, DecidableEq

/-- Reset alert state for a metric (bot.py lines 306-311). -/
def reset_metric_state : AlertState := ⟨0, 0, 0⟩

/-- Update state and determine if an alert should be sent
(bot.py lines 314-330, sync_state_for_value). -/
def sync_state_for_value (st : AlertState) (value : Int) (now_ts : Rat) :
    AlertState × Bool :=
  if value ≤ 0 then (reset_metric_state, false)
  else
    let st1 := if value ≠ st.last then
      { st with last := value, stage := 0, next_ts := now_ts } else st
    if st1.stage ≥ ALERT_BACKOFF.length then (st1, false)
    else (st1, decide (now_ts ≥ st1.next_ts))

/-- Mark alert as sent and schedule the next alert (bot.py lines 333-342). -/
def mark_sent (st : AlertState) (now_ts : Rat) : AlertState :=
  let stage1 := st.stage + 1
  if stage1 ≥ ALERT_BACKOFF.length then { st with stage := stage1, next_ts := 0 }
  else { st with stage := stage1,
                 next_ts := now_ts + ((ALERT_BACKOFF.getD stage1 0 : Int) : Rat) }

/-- One debouncer interaction: sync_state_for_value followed by mark_sent
exactly when the alert is sent (the protocol of check_alerts). -/
def debounce_step (st : AlertState) (value : Int) (now_ts : Rat) :
    AlertState × Bool :=
  let r := sync_state_for_value st value now_ts
  if r.2 then (mark_sent r.1 now_ts, true) else (r.1, false)

/-- Run the debouncer over a sequence of (badness, timestamp) observations,
collecting the fire decisions. -/
def run_debounce (st : AlertState) : List (Int × Rat) → AlertState × List Bool
  | [] => (st, [])
  | (v, t) :: rest =>
    let r := debounce_step st v t
    let rr := run_debounce r.1 rest
    (rr.1, r.2 :: rr.2)

/-- Cap on the exponential backoff sleep in seconds (bot.py line 29). -/
def MAX_RETRY_SLEEP : Rat := 20

/-- Threshold of consecutive whole-call failures before the down alert
(bot.py line 59). -/
def RPC_FAILURE_ALERT_THRESHOLD : Nat := 3

/-- Rotate to the next RPC provider (bot.py lines 118-123): advance the
cursor modulo the pool size. -/
def rotate_provider (rpc_index pool_size : Nat) : Nat :=
  (rpc_index + 1) % pool_size

/-- The mutable globals read and written by with_retries (bot.py lines
57-60 and 106): endpoint cursor, consecutive whole-call failure count, and
the down-alerted flag. -/
structure RpcState where
  rpc_index : Nat
  failures : Nat
  alerted : Bool
deriving Repr, DecidableEq

/-- Environment of one with_retries call: the outcome of each 0-based
attempt of the remote call (ok snapshot or an error identifier), the
attempt budget, the backoff base, the endpoint pool size, whether an admin
chat is configured, and whether the outbound notification send succeeds. -/
structure FetchEnv (T : Type) where
  outcomes : Nat → Except Nat T
  attempts : Nat
  base_sleep : Rat
  pool_size : Nat
  admin : Bool
  send_ok : Bool

/-- Observable outcome of one with_retries call: the returned snapshot or
the raised error (none models the final RuntimeError when no exception was
recorded), the globals after the call, and the rotation, sleep and
notification events. -/
structure FetchLog (T : Type) where
  result : Except (Option Nat) T
  rpc_index : Nat
  failures : Nat
  alerted : Bool
  rotations : Nat
  sleeps : List Rat
  restored_logged : Bool
  restored_sent : Bool
  down_sent : Bool
deriving Repr

/-- Whether the call raised (result is an error). -/
def FetchLog.failed {T : Type} (log : FetchLog T) : Bool :=
  match log.result with
  | Except.error _ => true
  | Except.ok _ => false

/-- The exhaustion tail of with_retries (bot.py lines 162-184): increment
the consecutive-failure counter, attempt the down alert when the threshold
is reached with the alerted flag unset (the flag is set only if the send
succeeded), and raise the last recorded error. -/
def retry_exhausted {T : Type} (env : FetchEnv T) (st : RpcState)
    (rotations : Nat) (sleeps : List Rat) (last_exc : Option Nat) :
    FetchLog T :=
  let failures := st.failures + 1
  let down := decide (failures ≥ RPC_FAILURE_ALERT_THRESHOLD) && !st.alerted
    && env.admin && env.send_ok
  { result := Except.error last_exc
    rpc_index := st.rpc_index
    failures := failures
    alerted := st.alerted || down
    rotations := rotations
    sleeps := sleeps
    restored_logged := false
    restored_sent := false
    down_sent := down }

/-- The success path of with_retries (bot.py lines 136-148): log the
restored notice when the failure counter was nonzero, attempt the admin
restored message when additionally the alerted flag was set (a failure of
that send is swallowed by the inner try/except), reset counter and flag,
and return the result. -/
def success_log {T : Type} (env : FetchEnv T) (st : RpcState)
    (rotations : Nat) (sleeps : List Rat) (v : T) : FetchLog T :=
  { result := Except.ok v
    rpc_index := st.rpc_index
    failures := 0
    alerted := false
    rotations := rotations
    sleeps := sleeps
    restored_logged := decide (0 < st.failures)
    restored_sent := decide (0 < st.failures) && st.alerted && env.admin
      && env.send_ok
    down_sent := false }

/-- The attempt loop of with_retries (bot.py lines 135-160): take the
success path on a successful attempt; on an exception, rotate the pool,
record the capped exponential backoff sleep, and continue with the next
attempt. -/
def retry_loop {T : Type} (env : FetchEnv T) (st : RpcState)
    (attempt remaining : Nat) (rotations : Nat) (sleeps : List Rat)
    (last_exc : Option Nat) : FetchLog T :=
  match remaining with
  | 0 => retry_exhausted env st rotations sleeps last_exc
  | r + 1 =>
    match env.outcomes attempt with
    | Except.ok v => success_log env st rotations sleeps v
    | Except.error e =>
      retry_loop env
        { st with rpc_index := rotate_provider st.rpc_index env.pool_size }
        (attempt + 1) r (rotations + 1)
        (sleeps ++ [min (env.base_sleep * 2 ^ attempt) MAX_RETRY_SLEEP])
        (some e)

/-- with_retries (bot.py lines 126-184). -/
def with_retries {T : Type} (env : FetchEnv T) (st : RpcState) : FetchLog T :=
  retry_loop env st 0 env.attempts 0 [] none

/-- A sequence of whole with_retries calls threading the global failure
state (the monitor cycles); collects each call's log. -/
def run_fetch_calls {T : Type} (st : RpcState) :
    List (FetchEnv T) → RpcState × List (FetchLog T)
  | [] => (st, [])
  | env :: rest =>
    let log := with_retries env st
    let r := run_fetch_calls ⟨log.rpc_index, log.failures, log.alerted⟩ rest
    (r.1, log :: r.2)

/-- Alert thresholds (bot.py lines 47-49 with the env.py defaults). -/
def MIN_BLOCK_PERCENT : Rat := 90

/-- Chunk threshold (bot.py line 48). -/
def MIN_CHUNK_PERCENT : Rat := 90

/-- Endorsement threshold (bot.py line 49). -/
def MIN_ENDORSEMENT_PERCENT : Rat := 90

/-- Python round-half-to-even of a rational to an integer. -/
def round_half_even (q : Rat) : Int :=
  if q - ⌊q⌋ < 1 / 2 then ⌊q⌋
  else if 1 / 2 < q - ⌊q⌋ then ⌊q⌋ + 1
  else if ⌊q⌋ % 2 = 0 then ⌊q⌋ else ⌊q⌋ + 1

/-- Python round(x, 1): round to one decimal digit, ties to even. -/
def py_round1 (q : Rat) : Rat := (round_half_even (q * 10) : Rat) / 10

/-- Python int(x) on a float: truncation toward zero. -/
def py_int (q : Rat) : Int := if q < 0 then -⌊-q⌋ else ⌊q⌋

/-- calculate_percentage (bot.py lines 206-210): percentage of produced vs
expected rounded to one decimal, 0 if expected is 0. -/
def calculate_percentage (produced expected : Int) : Rat :=
  if expected = 0 then 0
  else py_round1 ((produced : Rat) / (expected : Rat) * 100)

/-- The display percentage computed by format_pool_info (bot.py lines
224-234): the expected count is first coerced by the Python idiom
(int(...) or 1), so a zero expected count becomes 1, and then
calculate_percentage is applied. -/
def display_percentage (produced expected : Int) : Rat :=
  calculate_percentage produced (if expected = 0 then 1 else expected)

/-- The alert-path percentage of check_alerts (bot.py lines 358-368):
treated as 100 when the expected count is not positive. -/
def alert_percentage (produced expected : Int) : Rat :=
  if 0 < expected then calculate_percentage produced expected else 100

/-- One metric's branch of check_alerts (bot.py lines 376-389): when the
percentage is below the threshold, feed the inverted percentage to the
debouncer; otherwise reset the metric state. -/
def metric_alert_sync (pct threshold : Rat) (st : AlertState)
    (now_ts : Rat) : AlertState × Bool :=
  if pct < threshold then sync_state_for_value st (py_int (100 - pct)) now_ts
  else (reset_metric_state, false)

/-- A (produced, expected) counter pair of the snapshot. -/
structure MetricCounts where
  produced : Int
  expected : Int
deriving Repr, DecidableEq

/-- The monitored validator's counters in one snapshot. -/
structure ValCounts where
  blocks : MetricCounts
  chunks : MetricCounts
  endorsements : MetricCounts
deriving Repr, DecidableEq

/-- The three per-metric alert states (bot.py lines 299-303). -/
structure AlertStates where
  blocks : AlertState
  chunks : AlertState
  endorsements : AlertState
deriving Repr, DecidableEq

/-- The three per-metric sync_state_for_value passes of check_alerts
(bot.py lines 357-389): compute each metric's alert-path percentage and
feed it to the corresponding debouncer branch. -/
def metric_results (v : ValCounts) (st : AlertStates) (now_ts : Rat) :
    (AlertState × Bool) × (AlertState × Bool) × (AlertState × Bool) :=
  (metric_alert_sync (alert_percentage v.blocks.produced v.blocks.expected)
      MIN_BLOCK_PERCENT st.blocks now_ts,
   metric_alert_sync (alert_percentage v.chunks.produced v.chunks.expected)
      MIN_CHUNK_PERCENT st.chunks now_ts,
   metric_alert_sync (alert_percentage v.endorsements.produced
        v.endorsements.expected)
      MIN_ENDORSEMENT_PERCENT st.endorsements now_ts)

/-- check_alerts after a successful fetch (bot.py lines 345-409): admin
models whether ADMIN_CHAT_ID is set, val the monitored validator's entry
in current_validators (none when absent), send_ok whether bot.send_message
succeeds.  The send of the combined message (line 402) is not wrapped in
try/except, so its failure raises: Except.error carries the alert states
persisted in the globals at the moment of the raise (the
sync_state_for_value results; mark_sent not yet applied). -/
def check_alerts (admin send_ok : Bool) (now_ts : Rat)
    (val : Option ValCounts) (st : AlertStates) :
    Except AlertStates (AlertStates × Bool) :=
  if !admin then Except.ok (st, false)
  else match val with
  | none => Except.ok (st, false)
  | some v =>
    let r := metric_results v st now_ts
    let synced : AlertStates := ⟨r.1.1, r.2.1.1, r.2.2.1⟩
    if !(r.1.2 || r.2.1.2 || r.2.2.2) then Except.ok (synced, false)
    else if send_ok then
      Except.ok (⟨if r.1.2 then mark_sent r.1.1 now_ts else r.1.1,
                  if r.2.1.2 then mark_sent r.2.1.1 now_ts else r.2.1.1,
                  if r.2.2.2 then mark_sent r.2.2.1 now_ts else r.2.2.1⟩,
        true)
    else Except.error synced

/-- One body iteration of monitor_loop (bot.py lines 415-419): every
exception escaping check_alerts is caught and logged, and the loop
continues with whatever states were persisted at the raise. -/
def monitor_cycle (admin send_ok : Bool) (now_ts : Rat)
    (val : Option ValCounts) (st : AlertStates) : AlertStates × Bool :=
  match check_alerts admin send_ok now_ts val st with
  | Except.ok r => r
  | Except.error s => (s, false)

/-- A validator record as used by the rank computation of get_pool_info
(account id and stake). -/
structure VRec where
  account_id : String
  stake : Int
deriving Repr, DecidableEq

/-- The comparison used by get_pool_info (bot.py line 263):
sorted(current_validators, key=stake, reverse=True), i.e. a stable
descending sort by stake. -/
def stake_ge (a b : VRec) : Prop := b.stake ≤ a.stake

instance : DecidableRel stake_ge :=
  fun a b => inferInstanceAs (Decidable (b.stake ≤ a.stake))

instance : IsTotal VRec stake_ge := ⟨fun a b => le_total b.stake a.stake⟩

instance : IsTrans VRec stake_ge := ⟨fun _ _ _ hab hbc => le_trans hbc hab⟩

/-- The stable descending sort of get_pool_info (bot.py line 263). -/
def sorted_validators (l : List VRec) : List VRec :=
  l.insertionSort stake_ge

/-- The rank computation of get_pool_info (bot.py lines 265-269): 1-based
position of the first record with the monitored account id in the sorted
list; none models the "?" marker kept when the account is absent. -/
def compute_rank (l : List VRec) (account : String) : Option Nat :=
  match (sorted_validators l).findIdx? (fun v => v.account_id == account) with
  | some i => some (i + 1)
  | none => none

/-- C1: the badness sequence [5, 5, 5, 0, 3] observed at times
[0, 10, 70, 80, 90], starting from the initial state, alerts exactly at
t=0, t=70 and t=90, with the intermediate states stated by the claim:
after t=0 stage 1 and next_eligible 60; after t=10 unchanged; after t=70
stage 2 and next_eligible 370; after t=80 the reset state (0, 0, 0); after
t=90 stage 1 with last = 3. -/
theorem C1_debounce_scenario :
    (run_debounce ⟨0, 0, 0⟩ [(5, 0), (5, 10), (5, 70), (0, 80), (3, 90)]).2
      = [true, false, true, false, true]
    ∧ (run_debounce ⟨0, 0, 0⟩ [(5, 0)]).1 = ⟨5, 1, 60⟩
    ∧ (run_debounce ⟨0, 0, 0⟩ [(5, 0), (5, 10)]).1 = ⟨5, 1, 60⟩
    ∧ (run_debounce ⟨0, 0, 0⟩ [(5, 0), (5, 10), (5, 70)]).1 = ⟨5, 2, 370⟩
    ∧ (run_debounce ⟨0, 0, 0⟩ [(5, 0), (5, 10), (5, 70), (0, 80)]).1 = ⟨0, 0, 0⟩
    ∧ (run_debounce ⟨0, 0, 0⟩ [(5, 0), (5, 10), (5, 70), (0, 80), (3, 90)]).1
        = ⟨3, 1, 150⟩ := by
  refine ⟨?_, ?_, ?_, ?_, ?_, ?_⟩ <;>
    norm_num [run_debounce, debounce_step, sync_state_for_value, mark_sent,
      reset_metric_state, ALERT_BACKOFF]

/-- One debouncer interaction never pushes stage above the schedule length. -/
theorem debounce_step_stage_le (st : AlertState) (value : Int) (now_ts : Rat)
    (h : st.stage ≤ ALERT_BACKOFF.length) :
    (debounce_step st value now_ts).1.stage ≤ ALERT_BACKOFF.length := by
  unfold debounce_step sync_state_for_value mark_sent reset_metric_state
  simp only [ALERT_BACKOFF] at *
  split_ifs <;> simp_all <;> omega

/-- C9: over every interaction sequence (sync_state_for_value, then
mark_sent exactly when it returned true), starting from any state whose
stage is within the schedule, the stage never exceeds the schedule length
3; and once stage equals the schedule length, an unchanged positive value
produces no further alert and leaves the state untouched. -/
theorem C9_stage_saturates :
    (∀ (st : AlertState) (inputs : List (Int × Rat)),
      st.stage ≤ ALERT_BACKOFF.length →
      (run_debounce st inputs).1.stage ≤ ALERT_BACKOFF.length)
    ∧ (∀ (st : AlertState) (v : Int) (t : Rat),
      st.stage = ALERT_BACKOFF.length → 0 < v → v = st.last →
      debounce_step st v t = (st, false)) := by
  constructor
  · intro st inputs
    induction inputs generalizing st with
    | nil => intro h; exact h
    | cons p rest ih =>
      intro h
      obtain ⟨v, t⟩ := p
      exact ih _ (debounce_step_stage_le st v t h)
  · intro st v t hstage hv hlast
    unfold debounce_step sync_state_for_value
    have hne : ¬ v ≤ 0 := by omega
    simp [hne, hlast.symm, hstage]

/-- Witness for C9 at concrete inputs. -/
theorem C9_stage_saturates_witness :
    (run_debounce ⟨0, 0, 0⟩ [(5, 0), (5, 10), (7, 20)]).1.stage
        ≤ ALERT_BACKOFF.length
    ∧ debounce_step ⟨4, 3, 0⟩ 4 100 = (⟨4, 3, 0⟩, false) :=
  ⟨C9_stage_saturates.1 ⟨0, 0, 0⟩ [(5, 0), (5, 10), (7, 20)] (by decide),
   C9_stage_saturates.2 ⟨4, 3, 0⟩ 4 100 (by decide) (by decide) (by decide)⟩

/-- Equation lemma: no attempts left gives the exhaustion tail. -/
theorem retry_loop_zero {T : Type} (env : FetchEnv T) (st : RpcState)
    (attempt rot : Nat) (sl : List Rat) (le : Option Nat) :
    retry_loop env st attempt 0 rot sl le = retry_exhausted env st rot sl le :=
  rfl

/-- Equation lemma: a successful attempt takes the success path. -/
theorem retry_loop_ok {T : Type} {env : FetchEnv T} {attempt : Nat} {v : T}
    (st : RpcState) (r rot : Nat) (sl : List Rat) (le : Option Nat)
    (h : env.outcomes attempt = Except.ok v) :
    retry_loop env st attempt (r + 1) rot sl le
      = success_log env st rot sl v := by
  unfold retry_loop
  rw [h]

/-- Equation lemma: a failed attempt rotates, sleeps and recurses. -/
theorem retry_loop_err {T : Type} {env : FetchEnv T} {attempt : Nat} {e : Nat}
    (st : RpcState) (r rot : Nat) (sl : List Rat) (le : Option Nat)
    (h : env.outcomes attempt = Except.error e) :
    retry_loop env st attempt (r + 1) rot sl le =
      retry_loop env
        { st with rpc_index := rotate_provider st.rpc_index env.pool_size }
        (attempt + 1) r (rot + 1)
        (sl ++ [min (env.base_sleep * 2 ^ attempt) MAX_RETRY_SLEEP])
        (some e) := by
  conv_lhs => rw [retry_loop]
  rw [h]

/-- Every run of the attempt loop ends in the exhaustion tail or in the
success path, with the failure counter and the alerted flag carried
unchanged from the entry state (the loop itself only moves the cursor). -/
theorem retry_loop_cases {T : Type} (env : FetchEnv T) :
    ∀ (remaining attempt rot : Nat) (st : RpcState) (sl : List Rat)
      (le : Option Nat),
      (∃ k sl2 le2, retry_loop env st attempt remaining rot sl le
          = retry_exhausted env ⟨k, st.failures, st.alerted⟩
              (rot + remaining) sl2 le2)
      ∨ (∃ v k rot2 sl2, retry_loop env st attempt remaining rot sl le
          = success_log env ⟨k, st.failures, st.alerted⟩ rot2 sl2 v) := by
  intro remaining
  induction remaining with
  | zero =>
    intro attempt rot st sl le
    exact Or.inl ⟨st.rpc_index, sl, le, rfl⟩
  | succ r ih =>
    intro attempt rot st sl le
    cases h : env.outcomes attempt with
    | ok v =>
      exact Or.inr ⟨v, st.rpc_index, rot, sl, by rw [retry_loop_ok _ _ _ _ _ h]⟩
    | error e =>
      rcases ih (attempt + 1) (rot + 1)
          { st with rpc_index := rotate_provider st.rpc_index env.pool_size }
          (sl ++ [min (env.base_sleep * 2 ^ attempt) MAX_RETRY_SLEEP])
          (some e) with ⟨k, sl2, le2, heq⟩ | ⟨v, k, rot2, sl2, heq⟩
      · refine Or.inl ⟨k, sl2, le2, ?_⟩
        rw [retry_loop_err _ _ _ _ _ h, heq,
          show rot + 1 + r = rot + (r + 1) from by omega]
      · exact Or.inr ⟨v, k, rot2, sl2, by rw [retry_loop_err _ _ _ _ _ h, heq]⟩

/-- C3: a remote call failing on the first two attempts and succeeding on
the third makes with_retries (with the default budget of 6 attempts and
the default backoff base of 1 second) return the success result after
exactly 2 endpoint-pool rotations and 2 backoff sleeps of 1 second and
2 seconds. -/
theorem C3_two_failures_then_success {T : Type} (env : FetchEnv T)
    (st : RpcState) (v : T) (e0 e1 : Nat)
    (hatt : env.attempts = 6) (hbase : env.base_sleep = 1)
    (h0 : env.outcomes 0 = Except.error e0)
    (h1 : env.outcomes 1 = Except.error e1)
    (h2 : env.outcomes 2 = Except.ok v) :
    (with_retries env st).result = Except.ok v ∧
    (with_retries env st).rotations = 2 ∧
    (with_retries env st).sleeps = [1, 2] := by
  unfold with_retries
  rw [hatt]
  rw [show (6 : Nat) = 5 + 1 from rfl, retry_loop_err _ _ _ _ _ h0]
  rw [show (5 : Nat) = 4 + 1 from rfl, retry_loop_err _ _ _ _ _ h1]
  rw [show (4 : Nat) = 3 + 1 from rfl, retry_loop_ok _ _ _ _ _ h2]
  refine ⟨rfl, rfl, ?_⟩
  simp [success_log, hbase, MAX_RETRY_SLEEP, min_def]
  norm_num

/-- Witness for C3 at a concrete environment. -/
theorem C3_two_failures_then_success_witness :
    (with_retries
      (⟨fun i => if i = 0 then Except.error 7 else if i = 1 then
          Except.error 8 else Except.ok 42, 6, 1, 2, true, true⟩ :
        FetchEnv Nat) ⟨0, 0, false⟩).result = Except.ok 42 ∧
    (with_retries
      (⟨fun i => if i = 0 then Except.error 7 else if i = 1 then
          Except.error 8 else Except.ok 42, 6, 1, 2, true, true⟩ :
        FetchEnv Nat) ⟨0, 0, false⟩).rotations = 2 ∧
    (with_retries
      (⟨fun i => if i = 0 then Except.error 7 else if i = 1 then
          Except.error 8 else Except.ok 42, 6, 1, 2, true, true⟩ :
        FetchEnv Nat) ⟨0, 0, false⟩).sleeps = [1, 2] :=
  C3_two_failures_then_success _ _ 42 7 8 rfl rfl rfl rfl rfl

/-- C4: a remote call failing on every attempt makes with_retries (with
the default budget of 6 attempts) raise the last error, rotate the pool
exactly 6 times so that the cursor ends at start + 6 modulo the pool size,
and increment the consecutive-failure counter by exactly 1. -/
theorem C4_exhaustion {T : Type} (env : FetchEnv T) (st : RpcState)
    (e : Nat → Nat) (hatt : env.attempts = 6)
    (h : ∀ i, env.outcomes i = Except.error (e i)) :
    (with_retries env st).result = Except.error (some (e 5)) ∧
    (with_retries env st).rotations = 6 ∧
    (with_retries env st).rpc_index = (st.rpc_index + 6) % env.pool_size ∧
    (with_retries env st).failures = st.failures + 1 := by
  unfold with_retries
  rw [hatt]
  rw [show (6 : Nat) = 5 + 1 from rfl, retry_loop_err _ _ _ _ _ (h 0)]
  rw [show (5 : Nat) = 4 + 1 from rfl, retry_loop_err _ _ _ _ _ (h 1)]
  rw [show (4 : Nat) = 3 + 1 from rfl, retry_loop_err _ _ _ _ _ (h 2)]
  rw [show (3 : Nat) = 2 + 1 from rfl, retry_loop_err _ _ _ _ _ (h 3)]
  rw [show (2 : Nat) = 1 + 1 from rfl, retry_loop_err _ _ _ _ _ (h 4)]
  rw [show (1 : Nat) = 0 + 1 from rfl, retry_loop_err _ _ _ _ _ (h 5)]
  rw [retry_loop_zero]
  refine ⟨rfl, rfl, ?_, rfl⟩
  simp only [retry_exhausted, rotate_provider, Nat.mod_add_mod]

/-- Witness for C4 at a concrete environment. -/
theorem C4_exhaustion_witness :
    (with_retries (⟨fun i => Except.error i, 6, 1, 2, true, true⟩ :
        FetchEnv Nat) ⟨1, 0, false⟩).result = Except.error (some 5) ∧
    (with_retries (⟨fun i => Except.error i, 6, 1, 2, true, true⟩ :
        FetchEnv Nat) ⟨1, 0, false⟩).rotations = 6 ∧
    (with_retries (⟨fun i => Except.error i, 6, 1, 2, true, true⟩ :
        FetchEnv Nat) ⟨1, 0, false⟩).rpc_index = (1 + 6) % 2 ∧
    (with_retries (⟨fun i => Except.error i, 6, 1, 2, true, true⟩ :
        FetchEnv Nat) ⟨1, 0, false⟩).failures = 0 + 1 :=
  C4_exhaustion _ _ (fun i => i) rfl (fun _ => rfl)

/-- C6: a successful whole-call fetch after whole-call failures (the
consecutive-failure counter is nonzero) emits exactly one restored signal
and resets the counter and the alerted flag before returning. -/
theorem C6_restored_on_success {T : Type} (env : FetchEnv T) (st : RpcState)
    (v : T) (hf : 0 < st.failures)
    (hok : (with_retries env st).result = Except.ok v) :
    (with_retries env st).restored_logged = true ∧
    (with_retries env st).failures = 0 ∧
    (with_retries env st).alerted = false := by
  unfold with_retries at hok ⊢
  rcases retry_loop_cases env env.attempts 0 0 st [] none with
    ⟨k, sl2, le2, heq⟩ | ⟨w, k, rot2, sl2, heq⟩
  · rw [heq] at hok
    simp [retry_exhausted] at hok
  · rw [heq]
    simp [success_log, hf]

/-- Witness for C6 at a concrete environment. -/
theorem C6_restored_on_success_witness :
    (with_retries (⟨fun _ => Except.ok 42, 6, 1, 2, true, true⟩ :
        FetchEnv Nat) ⟨0, 2, false⟩).restored_logged = true ∧
    (with_retries (⟨fun _ => Except.ok 42, 6, 1, 2, true, true⟩ :
        FetchEnv Nat) ⟨0, 2, false⟩).failures = 0 ∧
    (with_retries (⟨fun _ => Except.ok 42, 6, 1, 2, true, true⟩ :
        FetchEnv Nat) ⟨0, 2, false⟩).alerted = false :=
  C6_restored_on_success _ _ 42 (by decide) rfl

/-- C5: the down notification is edge-triggered.  First: one whole call
(with an admin chat configured and a deliverable send) emits the down
notification exactly when the call fails and the incremented
consecutive-failure counter reaches the threshold with the alerted flag
unset.  Second: across any sequence of whole calls that all fail, while
the alerted flag is set no down notification is ever emitted again. -/
theorem C5_down_edge_triggered :
    (∀ (T : Type) (env : FetchEnv T) (st : RpcState),
      env.admin = true → env.send_ok = true →
      ((with_retries env st).down_sent = true ↔
        ((with_retries env st).failed = true ∧
          RPC_FAILURE_ALERT_THRESHOLD ≤ st.failures + 1 ∧
          st.alerted = false)))
    ∧ (∀ (T : Type) (envs : List (FetchEnv T)) (st : RpcState),
      st.alerted = true →
      (∀ log ∈ (run_fetch_calls st envs).2, log.failed = true) →
      ∀ log ∈ (run_fetch_calls st envs).2, log.down_sent = false) := by
  have hchar : ∀ (T : Type) (env : FetchEnv T) (st : RpcState),
      (∃ le2, (with_retries env st).failed = true ∧
        (with_retries env st).down_sent
          = (decide (RPC_FAILURE_ALERT_THRESHOLD ≤ st.failures + 1)
              && !st.alerted && env.admin && env.send_ok) ∧
        (with_retries env st).alerted
          = (st.alerted || (with_retries env st).down_sent) ∧
        (with_retries env st).result = Except.error le2)
      ∨ ((with_retries env st).failed = false ∧
        (with_retries env st).down_sent = false) := by
    intro T env st
    unfold with_retries
    rcases retry_loop_cases env env.attempts 0 0 st [] none with
      ⟨k, sl2, le2, heq⟩ | ⟨w, k, rot2, sl2, heq⟩
    · rw [heq]
      exact Or.inl ⟨le2, rfl, rfl, rfl, rfl⟩
    · rw [heq]
      exact Or.inr ⟨rfl, rfl⟩
  constructor
  · intro T env st hadm hsend
    rcases hchar T env st with ⟨le2, hfl, hdown, _, _⟩ | ⟨hfl, hdown⟩
    · rw [hdown, hfl, hadm, hsend]
      simp
    · rw [hdown, hfl]
      simp
  · intro T envs
    induction envs with
    | nil =>
      intro st _ _ log hlog
      simp [run_fetch_calls] at hlog
    | cons env rest ih =>
      intro st halert hfail log hlog
      have hmem : log = with_retries env st
          ∨ log ∈ (run_fetch_calls
              ⟨(with_retries env st).rpc_index, (with_retries env st).failures,
               (with_retries env st).alerted⟩ rest).2 := by
        simpa [run_fetch_calls] using hlog
      have hheadfailed : (with_retries env st).failed = true := by
        apply hfail
        simp [run_fetch_calls]
      rcases hchar T env st with ⟨le2, _, hdown, halout, _⟩ | ⟨hfl, _⟩
      · have hdownf : (with_retries env st).down_sent = false := by
          rw [hdown, halert]
          simp
        rcases hmem with rfl | htail
        · exact hdownf
        · apply ih ⟨(with_retries env st).rpc_index,
            (with_retries env st).failures, (with_retries env st).alerted⟩
          · rw [halout, halert, hdownf]
            rfl
          · intro lg hlg
            apply hfail
            simp [run_fetch_calls]
            exact Or.inr hlg
          · exact htail
      · rw [hfl] at hheadfailed
        exact absurd hheadfailed (by simp)

/-- Witness for C5 at concrete inputs. -/
theorem C5_down_edge_triggered_witness :
    ((with_retries (⟨fun i => Except.error i, 1, 1, 2, true, true⟩ :
        FetchEnv Nat) ⟨0, 2, false⟩).down_sent = true ↔
      ((with_retries (⟨fun i => Except.error i, 1, 1, 2, true, true⟩ :
          FetchEnv Nat) ⟨0, 2, false⟩).failed = true ∧
        RPC_FAILURE_ALERT_THRESHOLD ≤ 2 + 1 ∧ false = false)) ∧
    (∀ log ∈ (run_fetch_calls (T := Nat) ⟨0, 3, true⟩
        [⟨fun i => Except.error i, 1, 1, 2, true, true⟩]).2,
      log.down_sent = false) :=
  ⟨C5_down_edge_triggered.1 Nat _ _ rfl rfl,
   C5_down_edge_triggered.2 Nat _ _ rfl
     (by intro log hlog
         simp only [run_fetch_calls, List.mem_singleton] at hlog
         rw [hlog]
         rfl)⟩

/-- Stability of the stake sort: the records with any fixed stake value
appear in the sorted list exactly in their original relative order. -/
theorem filter_stake_sorted_validators (l : List VRec) (s : Int) :
    (sorted_validators l).filter (fun v => v.stake == s)
      = l.filter (fun v => v.stake == s) := by
  unfold sorted_validators
  have hpw : (l.filter (fun v => v.stake == s)).Pairwise stake_ge := by
    apply List.pairwise_of_forall_mem_list
    intro a ha b hb
    simp only [List.mem_filter, beq_iff_eq] at ha hb
    unfold stake_ge
    rw [hb.2, ha.2]
  have hsub : List.Sublist (l.filter (fun v => v.stake == s))
      (l.insertionSort stake_ge) :=
    List.sublist_insertionSort hpw (List.filter_sublist l)
  have hsub2 := hsub.filter (fun v => v.stake == s)
  have hidem : (l.filter (fun v => v.stake == s)).filter
      (fun v => v.stake == s) = l.filter (fun v => v.stake == s) := by
    simp [List.filter_filter]
  rw [hidem] at hsub2
  have hperm : ((l.insertionSort stake_ge).filter
        (fun v => v.stake == s)).Perm (l.filter (fun v => v.stake == s)) :=
    (List.perm_insertionSort stake_ge l).filter _
  exact (hsub2.eq_of_length hperm.length_eq.symm).symm

/-- C7: the rank computation sorts the current validator list descending
by stake with a stable sort (the sorted list is a permutation, is pairwise
descending, and records of equal stake keep their original relative
order), the rank is 1-based and points at a record bearing the monitored
account id, and an absent account yields the unknown marker. -/
theorem C7_rank_computation (l : List VRec) (account : String) :
    (sorted_validators l).Perm l
    ∧ (sorted_validators l).Sorted stake_ge
    ∧ (∀ s : Int, (sorted_validators l).filter (fun v => v.stake == s)
        = l.filter (fun v => v.stake == s))
    ∧ ((∀ v ∈ l, v.account_id ≠ account) → compute_rank l account = none)
    ∧ (∀ r, compute_rank l account = some r →
        1 ≤ r ∧ ∃ h : r - 1 < (sorted_validators l).length,
          ((sorted_validators l).get ⟨r - 1, h⟩).account_id = account) := by
  refine ⟨List.perm_insertionSort stake_ge l,
    List.sorted_insertionSort stake_ge l,
    filter_stake_sorted_validators l, ?_, ?_⟩
  · intro habs
    unfold compute_rank
    have hnone : (sorted_validators l).findIdx?
        (fun v => v.account_id == account) = none := by
      rw [List.findIdx?_eq_none_iff]
      intro x hx
      have hxl : x ∈ l := by
        unfold sorted_validators at hx
        exact (List.mem_insertionSort stake_ge).mp hx
      simpa using habs x hxl
    rw [hnone]
  · intro r hr
    unfold compute_rank at hr
    cases hIdx : (sorted_validators l).findIdx?
        (fun v => v.account_id == account) with
    | none => rw [hIdx] at hr; exact absurd hr (by simp)
    | some i =>
      rw [hIdx] at hr
      have hri : r = i + 1 := by
        simpa using hr.symm
      rcases List.findIdx?_eq_some_iff_getElem.mp hIdx with ⟨hlen, hget, _⟩
      subst hri
      refine ⟨by omega, ⟨by simpa using hlen, ?_⟩⟩
      simpa using hget

/-- Witness for C7 at concrete lists. -/
theorem C7_rank_computation_witness :
    compute_rank [⟨"a", 5⟩, ⟨"z", 7⟩] "q" = none
    ∧ (1 ≤ 2 ∧ ∃ h : 2 - 1 < (sorted_validators [⟨"a", 5⟩, ⟨"b", 7⟩]).length,
        ((sorted_validators [⟨"a", 5⟩, ⟨"b", 7⟩]).get ⟨2 - 1, h⟩).account_id
          = "a") :=
  ⟨(C7_rank_computation [⟨"a", 5⟩, ⟨"z", 7⟩] "q").2.2.2.1 (by decide),
   (C7_rank_computation [⟨"a", 5⟩, ⟨"b", 7⟩] "a").2.2.2.2 2 (by rfl)⟩

/-- Rounding an integer is the identity. -/
theorem round_half_even_intCast (n : Int) : round_half_even (n : Rat) = n := by
  unfold round_half_even
  rw [Int.floor_intCast]
  norm_num

/-- On a zero expected count the display path coerces the denominator to 1,
so the displayed percentage is produced * 100. -/
theorem display_percentage_zero_expected (p : Int) :
    display_percentage p 0 = (p : Rat) * 100 := by
  unfold display_percentage calculate_percentage py_round1
  norm_num
  rw [show (p : Rat) * 100 * 10 = ((p * 1000 : Int) : Rat) by
      push_cast; ring,
    round_half_even_intCast]
  push_cast
  ring

/-- C2 counterexample: a reading with expected = 0 and produced = 1 has
display percentage 100, not 0, refuting the display half of the claim. -/
theorem C2_counterexample : ¬ display_percentage 1 0 = 0 := by
  rw [display_percentage_zero_expected 1]
  norm_num

/-- C2 amended: with expected = 0 the alert-path percentage is 100 so the
metric never alerts (the debouncer branch resets the state and returns
false for each of the three thresholds); the display percentage equals
produced * 100 (the display path coerces expected to 1), which is 0
exactly when produced is 0. -/
theorem C2_zero_expected (produced : Int) (st : AlertState) (now_ts : Rat) :
    alert_percentage produced 0 = 100
    ∧ metric_alert_sync (alert_percentage produced 0) MIN_BLOCK_PERCENT
        st now_ts = (reset_metric_state, false)
    ∧ metric_alert_sync (alert_percentage produced 0) MIN_CHUNK_PERCENT
        st now_ts = (reset_metric_state, false)
    ∧ metric_alert_sync (alert_percentage produced 0) MIN_ENDORSEMENT_PERCENT
        st now_ts = (reset_metric_state, false)
    ∧ display_percentage produced 0 = (produced : Rat) * 100 := by
  have halert : alert_percentage produced 0 = 100 := by
    unfold alert_percentage
    norm_num
  refine ⟨halert, ?_, ?_, ?_, display_percentage_zero_expected produced⟩ <;>
    · rw [halert]
      norm_num [metric_alert_sync, MIN_BLOCK_PERCENT, MIN_CHUNK_PERCENT,
        MIN_ENDORSEMENT_PERCENT]

/-- Re-running a debouncer pass with the same value at a later time leaves
the state fixed, and a pass that fired keeps firing. -/
theorem sync_persist (st : AlertState) (v : Int) (now_ts t : Rat)
    (ht : now_ts ≤ t) :
    (sync_state_for_value (sync_state_for_value st v now_ts).1 v t).1
      = (sync_state_for_value st v now_ts).1
    ∧ ((sync_state_for_value st v now_ts).2 = true →
      (sync_state_for_value (sync_state_for_value st v now_ts).1 v t).2
        = true) := by
  by_cases hv : v ≤ 0
  · constructor
    · simp [sync_state_for_value, hv]
    · simp [sync_state_for_value, hv]
  · by_cases hne : v = st.last
    · have hv2 : ¬ st.last ≤ 0 := hne ▸ hv
      have h1 : sync_state_for_value st v now_ts
          = if st.stage ≥ ALERT_BACKOFF.length then (st, false)
            else (st, decide (now_ts ≥ st.next_ts)) := by
        simp [sync_state_for_value, hv, hne, hv2]
      have h2 : sync_state_for_value st v t
          = if st.stage ≥ ALERT_BACKOFF.length then (st, false)
            else (st, decide (t ≥ st.next_ts)) := by
        simp [sync_state_for_value, hv, hne, hv2]
      by_cases hs : st.stage ≥ ALERT_BACKOFF.length
      · rw [h1, if_pos hs, h2, if_pos hs]
        simp
      · rw [h1, if_neg hs, h2, if_neg hs]
        refine ⟨rfl, ?_⟩
        intro hfire
        simp only [decide_eq_true_eq, ge_iff_le] at hfire ⊢
        linarith
    · have h1 : sync_state_for_value st v now_ts = (⟨v, 0, now_ts⟩, true) := by
        simp [sync_state_for_value, hv, hne, ALERT_BACKOFF]
      have h2 : sync_state_for_value ⟨v, 0, now_ts⟩ v t
          = (⟨v, 0, now_ts⟩, decide (t ≥ now_ts)) := by
        simp [sync_state_for_value, hv, ALERT_BACKOFF]
      rw [h1, h2]
      refine ⟨rfl, ?_⟩
      intro _
      simp only [decide_eq_true_eq, ge_iff_le]
      exact ht

/-- Re-running one metric branch of check_alerts on its own output with
the same percentage at a later time leaves the state fixed, and a branch
that fired keeps firing. -/
theorem metric_alert_sync_persist (pct thr : Rat) (st : AlertState)
    (now_ts t : Rat) (ht : now_ts ≤ t) :
    (metric_alert_sync pct thr (metric_alert_sync pct thr st now_ts).1 t).1
      = (metric_alert_sync pct thr st now_ts).1
    ∧ ((metric_alert_sync pct thr st now_ts).2 = true →
      (metric_alert_sync pct thr (metric_alert_sync pct thr st now_ts).1 t).2
        = true) := by
  by_cases hp : pct < thr
  · simp only [metric_alert_sync, if_pos hp]
    exact sync_persist st (py_int (100 - pct)) now_ts t ht
  · simp [metric_alert_sync, hp]

/-- One metric branch of check_alerts never increments the stage: it either
resets it to 0 or leaves the whole state unchanged. -/
theorem metric_alert_sync_stage (pct thr : Rat) (st : AlertState)
    (now_ts : Rat) :
    (metric_alert_sync pct thr st now_ts).1.stage = 0
    ∨ (metric_alert_sync pct thr st now_ts).1 = st := by
  by_cases hp : pct < thr
  · simp only [metric_alert_sync, if_pos hp]
    by_cases hv : py_int (100 - pct) ≤ 0
    · exact Or.inl (by simp [sync_state_for_value, hv, reset_metric_state])
    · by_cases hne : py_int (100 - pct) = st.last
      · have hv2 : ¬ st.last ≤ 0 := hne ▸ hv
        have h1 : sync_state_for_value st (py_int (100 - pct)) now_ts
            = if st.stage ≥ ALERT_BACKOFF.length then (st, false)
              else (st, decide (now_ts ≥ st.next_ts)) := by
          simp [sync_state_for_value, hv, hne, hv2]
        refine Or.inr ?_
        rw [h1]
        split_ifs <;> rfl
      · have h1 : sync_state_for_value st (py_int (100 - pct)) now_ts
            = (⟨py_int (100 - pct), 0, now_ts⟩, true) := by
          simp [sync_state_for_value, hv, hne, ALERT_BACKOFF]
        exact Or.inl (by rw [h1])
  · exact Or.inl (by simp [metric_alert_sync, hp, reset_metric_state])

/-- Destructing a raising run of check_alerts: the admin chat was set, the
send failed, the validator was present, some metric fired, and the
persisted states are exactly the sync results. -/
theorem check_alerts_error_dest (admin send_ok : Bool) (now_ts : Rat)
    (val : Option ValCounts) (st s : AlertStates)
    (h : check_alerts admin send_ok now_ts val st = Except.error s) :
    admin = true ∧ send_ok = false ∧
    ∃ v, val = some v ∧
      ((metric_results v st now_ts).1.2 || (metric_results v st now_ts).2.1.2
        || (metric_results v st now_ts).2.2.2) = true ∧
      s = ⟨(metric_results v st now_ts).1.1,
           (metric_results v st now_ts).2.1.1,
           (metric_results v st now_ts).2.2.1⟩ := by
  cases admin with
  | false => simp [check_alerts] at h
  | true =>
    cases val with
    | none => simp [check_alerts] at h
    | some v =>
      simp only [check_alerts, Bool.not_true, Bool.false_eq_true, if_false] at h
      split_ifs at h with h1 h2
      all_goals cases h
      refine ⟨rfl, by simpa using h2, v, rfl, ?_, rfl⟩
      revert h1
      cases ((metric_results v st now_ts).1.2
        || (metric_results v st now_ts).2.1.2
        || (metric_results v st now_ts).2.2.2) <;> simp

/-- Constructing a raising run of check_alerts: with the admin chat set, a
failing send and some metric firing, check_alerts raises with the sync
results persisted. -/
theorem check_alerts_error_intro (now_ts : Rat) (v : ValCounts)
    (st : AlertStates)
    (hfired : ((metric_results v st now_ts).1.2
      || (metric_results v st now_ts).2.1.2
      || (metric_results v st now_ts).2.2.2) = true) :
    check_alerts true false now_ts (some v) st
      = Except.error ⟨(metric_results v st now_ts).1.1,
          (metric_results v st now_ts).2.1.1,
          (metric_results v st now_ts).2.2.1⟩ := by
  simp [check_alerts, hfired]

/-- The result of the attempt loop depends only on the attempt outcomes
and the remaining budget: the entry state and the notification plumbing
(admin chat, send success, pool size) never influence what is returned or
raised. -/
theorem retry_loop_result_indep {T : Type} (env1 env2 : FetchEnv T)
    (hout : env1.outcomes = env2.outcomes) :
    ∀ (remaining attempt : Nat) (st1 st2 : RpcState) (rot1 rot2 : Nat)
      (sl1 sl2 : List Rat) (le : Option Nat),
      (retry_loop env1 st1 attempt remaining rot1 sl1 le).result
        = (retry_loop env2 st2 attempt remaining rot2 sl2 le).result := by
  intro remaining
  induction remaining with
  | zero =>
    intro attempt st1 st2 rot1 rot2 sl1 sl2 le
    rfl
  | succ r ih =>
    intro attempt st1 st2 rot1 rot2 sl1 sl2 le
    cases h : env1.outcomes attempt with
    | ok v =>
      rw [retry_loop_ok _ _ _ _ _ h, retry_loop_ok _ _ _ _ _ (hout ▸ h)]
      rfl
    | error e =>
      rw [retry_loop_err _ _ _ _ _ h, retry_loop_err _ _ _ _ _ (hout ▸ h)]
      exact ih _ _ _ _ _ _ _ _

/-- C8 counterexample: with the admin chat set and the outbound send
failing, a cycle in which the blocks metric is below threshold makes
check_alerts itself return the raised error: the failure of the combined
alert send does propagate out of the alert-checking step. -/
theorem C8_counterexample :
    check_alerts true false 0
      (some ⟨⟨0, 100⟩, ⟨100, 100⟩, ⟨100, 100⟩⟩)
      ⟨⟨0, 0, 0⟩, ⟨0, 0, 0⟩, ⟨0, 0, 0⟩⟩
      = Except.error ⟨⟨100, 0, 0⟩, ⟨0, 0, 0⟩, ⟨0, 0, 0⟩⟩ := by
  norm_num [check_alerts, metric_results, metric_alert_sync,
    alert_percentage, calculate_percentage, py_round1, py_int,
    round_half_even, sync_state_for_value, reset_metric_state,
    MIN_BLOCK_PERCENT, MIN_CHUNK_PERCENT, MIN_ENDORSEMENT_PERCENT,
    ALERT_BACKOFF]

/-- C8 amended: send failures inside with_retries are caught at the point
of sending and never influence the call's outcome (the result depends only
on the attempt outcomes and the budget), while a failed send of the
combined per-cycle alert raises out of check_alerts and is caught one
level up by the monitor loop, which keeps the persisted states and
continues. -/
theorem C8_amended_send_failures :
    (∀ (T : Type) (env1 env2 : FetchEnv T) (st1 st2 : RpcState),
      env1.outcomes = env2.outcomes → env1.attempts = env2.attempts →
      (with_retries env1 st1).result = (with_retries env2 st2).result)
    ∧ (∀ (admin send_ok : Bool) (now_ts : Rat) (val : Option ValCounts)
        (st s : AlertStates),
      check_alerts admin send_ok now_ts val st = Except.error s →
      monitor_cycle admin send_ok now_ts val st = (s, false)) := by
  constructor
  · intro T env1 env2 st1 st2 hout hatt
    unfold with_retries
    rw [hatt]
    exact retry_loop_result_indep env1 env2 hout env2.attempts 0 st1 st2
      0 0 [] [] none
  · intro admin send_ok now_ts val st s h
    unfold monitor_cycle
    rw [h]

/-- Witness for the amended C8 at concrete inputs. -/
theorem C8_amended_send_failures_witness :
    (with_retries (⟨fun i => Except.error i, 6, 1, 2, true, true⟩ :
        FetchEnv Nat) ⟨0, 0, false⟩).result
      = (with_retries (⟨fun i => Except.error i, 6, 1, 3, false, false⟩ :
        FetchEnv Nat) ⟨1, 5, true⟩).result
    ∧ monitor_cycle true false 0
        (some ⟨⟨0, 100⟩, ⟨100, 100⟩, ⟨100, 100⟩⟩)
        ⟨⟨0, 0, 0⟩, ⟨0, 0, 0⟩, ⟨0, 0, 0⟩⟩
      = (⟨⟨100, 0, 0⟩, ⟨0, 0, 0⟩, ⟨0, 0, 0⟩⟩, false) :=
  ⟨C8_amended_send_failures.1 Nat _ _ _ _ rfl rfl,
   C8_amended_send_failures.2 true false 0 _ _ _
     (by norm_num [check_alerts, metric_results, metric_alert_sync,
        alert_percentage, calculate_percentage, py_round1, py_int,
        round_half_even, sync_state_for_value, reset_metric_state,
        MIN_BLOCK_PERCENT, MIN_CHUNK_PERCENT, MIN_ENDORSEMENT_PERCENT,
        ALERT_BACKOFF])⟩

/-- C10 counterexample: a cycle whose send raises can still change a
metric's alert state: here the blocks badness changed from the remembered
5 to 17, so sync_state_for_value reset the stage from 2 to 0 and moved
next_eligible to now before the failed send, refuting the parenthetical
that stage and next_eligible are unchanged. -/
theorem C10_counterexample :
    check_alerts true false 10
      (some ⟨⟨83, 100⟩, ⟨100, 100⟩, ⟨100, 100⟩⟩)
      ⟨⟨5, 2, 0⟩, ⟨0, 0, 0⟩, ⟨0, 0, 0⟩⟩
      = Except.error ⟨⟨17, 0, 10⟩, ⟨0, 0, 0⟩, ⟨0, 0, 0⟩⟩
    ∧ (⟨17, 0, 10⟩ : AlertState).stage ≠ (⟨5, 2, 0⟩ : AlertState).stage := by
  constructor
  · norm_num [check_alerts, metric_results, metric_alert_sync,
      alert_percentage, calculate_percentage, py_round1, py_int,
      round_half_even, sync_state_for_value, reset_metric_state,
      MIN_BLOCK_PERCENT, MIN_CHUNK_PERCENT, MIN_ENDORSEMENT_PERCENT,
      ALERT_BACKOFF]
  · decide

/-- C10 amended: the combined message send precedes every mark_sent, so
when the send raises no metric state is advanced by mark_sent: each
persisted stage is either reset to 0 or identical to the pre-cycle stage,
and re-running the cycle on the persisted states with the same snapshot at
any later time raises again with the very same states - the firing alerts
remain eligible on the next cycle. -/
theorem C10_amended (admin : Bool) (now_ts : Rat) (val : Option ValCounts)
    (st s : AlertStates)
    (h : check_alerts admin false now_ts val st = Except.error s) :
    (s.blocks.stage = 0 ∨ s.blocks.stage = st.blocks.stage)
    ∧ (s.chunks.stage = 0 ∨ s.chunks.stage = st.chunks.stage)
    ∧ (s.endorsements.stage = 0
        ∨ s.endorsements.stage = st.endorsements.stage)
    ∧ ∀ t, now_ts ≤ t →
        check_alerts admin false t val s = Except.error s := by
  obtain ⟨hadm, _, v, hval, hfired, hs⟩ :=
    check_alerts_error_dest _ _ _ _ _ _ h
  subst hadm
  subst hval
  subst hs
  refine ⟨?_, ?_, ?_, ?_⟩
  · exact Or.imp id (congrArg AlertState.stage)
      (metric_alert_sync_stage
        (alert_percentage v.blocks.produced v.blocks.expected)
        MIN_BLOCK_PERCENT st.blocks now_ts)
  · exact Or.imp id (congrArg AlertState.stage)
      (metric_alert_sync_stage
        (alert_percentage v.chunks.produced v.chunks.expected)
        MIN_CHUNK_PERCENT st.chunks now_ts)
  · exact Or.imp id (congrArg AlertState.stage)
      (metric_alert_sync_stage
        (alert_percentage v.endorsements.produced v.endorsements.expected)
        MIN_ENDORSEMENT_PERCENT st.endorsements now_ts)
  · intro t ht
    have hb := metric_alert_sync_persist
      (alert_percentage v.blocks.produced v.blocks.expected)
      MIN_BLOCK_PERCENT st.blocks now_ts t ht
    have hc := metric_alert_sync_persist
      (alert_percentage v.chunks.produced v.chunks.expected)
      MIN_CHUNK_PERCENT st.chunks now_ts t ht
    have hd := metric_alert_sync_persist
      (alert_percentage v.endorsements.produced v.endorsements.expected)
      MIN_ENDORSEMENT_PERCENT st.endorsements now_ts t ht
    have hfired2 : ((metric_results v
          ⟨(metric_results v st now_ts).1.1,
           (metric_results v st now_ts).2.1.1,
           (metric_results v st now_ts).2.2.1⟩ t).1.2
        || (metric_results v
          ⟨(metric_results v st now_ts).1.1,
           (metric_results v st now_ts).2.1.1,
           (metric_results v st now_ts).2.2.1⟩ t).2.1.2
        || (metric_results v
          ⟨(metric_results v st now_ts).1.1,
           (metric_results v st now_ts).2.1.1,
           (metric_results v st now_ts).2.2.1⟩ t).2.2.2) = true := by
      simp only [Bool.or_eq_true] at hfired ⊢
      rcases hfired with (h1 | h2) | h3
      · exact Or.inl (Or.inl (hb.2 h1))
      · exact Or.inl (Or.inr (hc.2 h2))
      · exact Or.inr (hd.2 h3)
    rw [check_alerts_error_intro t v _ hfired2]
    congr 1
    simp only [AlertStates.mk.injEq]
    exact ⟨hb.1, hc.1, hd.1⟩

/-- Witness for the amended C10 at a concrete raising cycle. -/
theorem C10_amended_witness :
    ((⟨⟨100, 0, 0⟩, ⟨0, 0, 0⟩, ⟨0, 0, 0⟩⟩ : AlertStates).blocks.stage = 0
      ∨ (⟨⟨100, 0, 0⟩, ⟨0, 0, 0⟩, ⟨0, 0, 0⟩⟩ : AlertStates).blocks.stage
        = (⟨⟨0, 0, 0⟩, ⟨0, 0, 0⟩, ⟨0, 0, 0⟩⟩ : AlertStates).blocks.stage)
    ∧ ((⟨⟨100, 0, 0⟩, ⟨0, 0, 0⟩, ⟨0, 0, 0⟩⟩ : AlertStates).chunks.stage = 0
      ∨ (⟨⟨100, 0, 0⟩, ⟨0, 0, 0⟩, ⟨0, 0, 0⟩⟩ : AlertStates).chunks.stage
        = (⟨⟨0, 0, 0⟩, ⟨0, 0, 0⟩, ⟨0, 0, 0⟩⟩ : AlertStates).chunks.stage)
    ∧ ((⟨⟨100, 0, 0⟩, ⟨0, 0, 0⟩,
          ⟨0, 0, 0⟩⟩ : AlertStates).endorsements.stage = 0
      ∨ (⟨⟨100, 0, 0⟩, ⟨0, 0, 0⟩, ⟨0, 0, 0⟩⟩ :
          AlertStates).endorsements.stage
        = (⟨⟨0, 0, 0⟩, ⟨0, 0, 0⟩,
            ⟨0, 0, 0⟩⟩ : AlertStates).endorsements.stage)
    ∧ ∀ t, (0 : Rat) ≤ t →
        check_alerts true false t
          (some ⟨⟨0, 100⟩, ⟨100, 100⟩, ⟨100, 100⟩⟩)
          ⟨⟨100, 0, 0⟩, ⟨0, 0, 0⟩, ⟨0, 0, 0⟩⟩
        = Except.error ⟨⟨100, 0, 0⟩, ⟨0, 0, 0⟩, ⟨0, 0, 0⟩⟩ :=
  C10_amended true 0 (some ⟨⟨0, 100⟩, ⟨100, 100⟩, ⟨100, 100⟩⟩)
    ⟨⟨0, 0, 0⟩, ⟨0, 0, 0⟩, ⟨0, 0, 0⟩⟩
    ⟨⟨100, 0, 0⟩, ⟨0, 0, 0⟩, ⟨0, 0, 0⟩⟩
    (by norm_num [check_alerts, metric_results, metric_alert_sync,
      alert_percentage, calculate_percentage, py_round1, py_int,
      round_half_even, sync_state_for_value, reset_metric_state,
      MIN_BLOCK_PERCENT, MIN_CHUNK_PERCENT, MIN_ENDORSEMENT_PERCENT,
      ALERT_BACKOFF])

end Nearby
